import Mathlib

/-!
Verification of the MCP-on-Vercel protocol adapter and stdio bridge.

The development shallowly embeds the two protocol-relevant modules:
* `api/mcp_adapter.py` — the access gate (`check_api_key`), the JSON-RPC
  method dispatcher (`handle_mcp_method`, `call_mcp_tool`) and the HTTP
  endpoint handler (`handle_mcp_request`);
* `bridge.py` — the stdio-to-HTTP bridge (`forward_request`,
  `handle_list_tools`).

JSON values are an inductive type; Python dictionaries are association
lists preserving insertion order.  External collaborators (the FastMCP
registry/client and the outbound HTTP transport) are parameters: a
tool-listing outcome, a tool-invocation function and a `post` function,
each returning `Except String _` where `.error msg` stands for a raised
Python exception carrying `str(e) = msg`.
-/

/-- JSON values (`json.loads` results).  Numbers are modelled as integers:
every numeric literal the adapter or bridge produces or inspects is an
integer (JSON-RPC error codes, ids). -/
inductive Json where
  | null
  | bool (b : Bool)
  | num (n : Int)
  | str (s : String)
  | arr (elems : List Json)
  | obj (fields : List (String × Json))

/-- Ordered-dictionary lookup (first match; `json.loads` never produces
duplicate keys). -/
def jLookup : List (String × Json) → String → Option Json
  | [], _ => none
  | (k, v) :: rest, key => if k = key then some v else jLookup rest key

/-- Lookup `d[k]`-style on a JSON value: `some v` when the value is an
object carrying the key. -/
def Json.getKey (j : Json) (k : String) : Option Json :=
  match j with
  | .obj fields => jLookup fields k
  | _ => none

/-- Python `k in d` for a JSON object. -/
def Json.hasKey (j : Json) (k : String) : Bool :=
  (j.getKey k).isSome

/-- Python `x == "lit"` where `x` is a decoded JSON value: true exactly
when `x` is that string. -/
def Json.isStr (j : Json) (s : String) : Bool :=
  match j with
  | .str t => t == s
  | _ => false

/-- Python truthiness of a decoded JSON value. -/
def Json.truthy : Json → Bool
  | .null => false
  | .bool b => b
  | .num n => n != 0
  | .str s => s != ""
  | .arr elems => !elems.isEmpty
  | .obj fields => !fields.isEmpty

mutual
/-- Python `repr` of a decoded JSON value (string escaping inside nested
strings is not reproduced; no claim depends on it). -/
def pyRepr : Json → String
  | .null => "None"
  | .bool true => "True"
  | .bool false => "False"
  | .num n => toString n
  | .str s => "\x27" ++ s ++ "\x27"
  | .arr elems => "[" ++ pyReprList elems ++ "]"
  | .obj fields => "\x7b" ++ pyReprPairs fields ++ "\x7d"

def pyReprList : List Json → String
  | [] => ""
  | [j] => pyRepr j
  | j :: rest => pyRepr j ++ ", " ++ pyReprList rest

def pyReprPairs : List (String × Json) → String
  | [] => ""
  | [(k, v)] => "\x27" ++ k ++ "\x27: " ++ pyRepr v
  | (k, v) :: rest => "\x27" ++ k ++ "\x27: " ++ pyRepr v ++ ", " ++ pyReprPairs rest
end

/-- Python `str` of a decoded JSON value, as used by f-string interpolation. -/
def pyStr : Json → String
  | .str s => s
  | j => pyRepr j

/-- Python `str.startswith`, on the code-point sequence. -/
def pyStartswith (s pre : String) : Bool :=
  pre.data.isPrefixOf s.data

/-- Python slicing `s[n:]`, on the code-point sequence. -/
def pyDrop (s : String) (n : Nat) : String :=
  ⟨s.data.drop n⟩

/-- Python `a or b` over optional header values (`None` and `""` are
falsy). -/
def pyOr (a b : Option String) : Option String :=
  match a with
  | some s => if s = "" then b else some s
  | none => b

/-- Embedding of `check_api_key` (api/mcp_adapter.py:15-32).  `required_api_key` is the
`MCP_API_KEY` environment value (`none` when unset), `xApiKey` and
`authorization` the two request headers. -/
def check_api_key (required_api_key : Option String)
    (xApiKey authorization : Option String) : Bool :=
  match required_api_key with
  | none => true
  | some required =>
    if required = "" then true
    else
      let provided := pyOr xApiKey authorization
      let provided := match provided with
        | some k => if pyStartswith k "Bearer " then some (pyDrop k 7) else some k
        | none => none
      provided == some required

/-- The `{"jsonrpc": "2.0", "id": ..., "error": {"code": ..., "message": ...}}`
envelope the adapter builds inline at each error site. -/
def errorEnvelope (id : Json) (code : Int) (message : String) : Json :=
  .obj [("jsonrpc", .str "2.0"), ("id", id),
        ("error", .obj [("code", .num code), ("message", .str message)])]

/-- Embedding of `call_mcp_tool` (api/mcp_adapter.py:49-69).  `invoke` abstracts
`Client.call_tool` plus the per-item text rendering: `.ok texts` is the
list of rendered text contents, `.error e` a raised exception with
`str(e) = e`. -/
def call_mcp_tool (invoke : Json → Json → Except String (List String))
    (tool_name : Json) (arguments : Json) : Json :=
  match invoke tool_name arguments with
  | .ok texts =>
    .obj [("content", .arr (texts.map fun t =>
            Json.obj [("type", .str "text"), ("text", .str t)])),
          ("isError", .bool false)]
  | .error e =>
    .obj [("error", .obj [("code", .num (-32603)), ("message", .str e)])]

/-- Embedding of `handle_mcp_method` (api/mcp_adapter.py:72-118).  `serverName` is
`mcp.name`; `listTools` abstracts `get_tools_from_mcp` (`.error` = raised
exception, which propagates).  A `.error` result is an uncaught Python
exception; in particular `params.get(...)` on a non-dict raises. -/
def handle_mcp_method (serverName : String)
    (listTools : Except String (List Json))
    (invoke : Json → Json → Except String (List String))
    (method : Json) (params : Json) (request_id : Json) : Except String Json :=
  if method.isStr "initialize" then
    .ok (.obj [("jsonrpc", .str "2.0"), ("id", request_id),
      ("result", .obj [
        ("protocolVersion", .str "2024-11-05"),
        ("capabilities", .obj [("tools", .obj [("listChanged", .bool true)])]),
        ("serverInfo", .obj [("name", .str serverName), ("version", .str "1.0.0")])])])
  else if method.isStr "tools/list" then
    match listTools with
    | .ok tools =>
      .ok (.obj [("jsonrpc", .str "2.0"), ("id", request_id),
        ("result", .obj [("tools", .arr tools)])])
    | .error e => .error e
  else if method.isStr "tools/call" then
    match params with
    | .obj fields =>
      let tool_name := (jLookup fields "name").getD Json.null
      let arguments := (jLookup fields "arguments").getD (Json.obj [])
      if tool_name.truthy = false then
        .ok (errorEnvelope request_id (-32602) "Missing tool name")
      else
        let result := call_mcp_tool invoke tool_name arguments
        match result.getKey "error" with
        | some err =>
          .ok (.obj [("jsonrpc", .str "2.0"), ("id", request_id), ("error", err)])
        | none =>
          .ok (.obj [("jsonrpc", .str "2.0"), ("id", request_id), ("result", result)])
    | _ => .error "AttributeError: object has no attribute get"
  else if method.isStr "ping" then
    .ok (.obj [("jsonrpc", .str "2.0"), ("id", request_id), ("result", .obj [])])
  else
    .ok (errorEnvelope request_id (-32601)
      ("Method \x27" ++ pyStr method ++ "\x27 not found"))

/-- Outcome of one call of the `/mcp` endpoint handler: an HTTP response
with a JSON body, or an exception escaping the handler (only possible when
the generic `except` clause itself raises). -/
inductive HttpOutcome where
  | response (status : Nat) (body : Json)
  | unhandled

/-- Outcome of `body.decode()` followed by `json.loads` on the raw request
bytes, as the handler consumes them (api/mcp_adapter.py:207-208):
`.decodeError msg` is a `UnicodeDecodeError` raised by `body.decode()` on
non-UTF-8 bytes (with `str(e) = msg`), `.parseError` a `JSONDecodeError`
raised by `json.loads`, `.parsed j` the decoded JSON value. -/
inductive BodyRead where
  | decodeError (msg : String)
  | parseError
  | parsed (j : Json)

/-- Embedding of `handle_mcp_request` (api/mcp_adapter.py:200-231).  `body` is the
outcome of `body.decode()` + `json.loads` on the raw bytes.  The
`raise HTTPException(403)` is caught by the handler's own
`except Exception` clause (HTTPException subclasses Exception), so the
denied-key path produces HTTP 500 with `str(e) = "403: API key is
required"` per Starlette's `HTTPException.__str__`; `request_data` is not
yet bound there, so the envelope id is `null`.  A `UnicodeDecodeError`
from `body.decode()` is likewise not a `json.JSONDecodeError`, so it too
falls to the blanket `except Exception` (HTTP 500, `-32603`, id `null`
since `request_data` is unbound), not to the 400 parse-error clause. -/
def handle_mcp_request (required_api_key : Option String)
    (xApiKey authorization : Option String)
    (body : BodyRead) (serverName : String)
    (listTools : Except String (List Json))
    (invoke : Json → Json → Except String (List String)) : HttpOutcome :=
  if check_api_key required_api_key xApiKey authorization = false then
    .response 500 (errorEnvelope Json.null (-32603)
      "Internal error: 403: API key is required")
  else
    match body with
    | .decodeError msg =>
      .response 500 (errorEnvelope Json.null (-32603) ("Internal error: " ++ msg))
    | .parseError => .response 400 (errorEnvelope Json.null (-32700) "Parse error")
    | .parsed request_data =>
      match request_data with
      | .obj fields =>
        let method := (jLookup fields "method").getD Json.null
        let params := (jLookup fields "params").getD (Json.obj [])
        let request_id := (jLookup fields "id").getD Json.null
        match handle_mcp_method serverName listTools invoke method params request_id with
        | .ok response => .response 200 response
        | .error e =>
          .response 500 (errorEnvelope request_id (-32603) ("Internal error: " ++ e))
      | _ =>
        -- `request_data.get("method")` raised; the `except Exception`
        -- clause then evaluates `request_data.get("id")`, which raises
        -- again, so the exception escapes the handler.
        .unhandled

/-! ## Bridge process (bridge.py) -/

/-- The JSON-RPC request body `forward_request` builds (bridge.py:60-62):
a fixed `id` of `1`, with `params` appended only when truthy. -/
def bridge_request (method : String) (params : Option Json) : Json :=
  match params with
  | some p =>
    if p.truthy then
      .obj [("jsonrpc", .str "2.0"), ("method", .str method), ("id", .num 1),
            ("params", p)]
    else
      .obj [("jsonrpc", .str "2.0"), ("method", .str method), ("id", .num 1)]
  | none =>
    .obj [("jsonrpc", .str "2.0"), ("method", .str method), ("id", .num 1)]

/-- The headers `forward_request` sends (bridge.py:64-72); the key header
is attached only when `self.api_key` is truthy. -/
def bridge_headers (api_key : Option String) : List (String × String) :=
  let base := [("Content-Type", "application/json"),
               ("Accept", "application/json, text/event-stream")]
  match api_key with
  | some k => if k = "" then base else base ++ [("X-API-Key", k)]
  | none => base

/-- Embedding of `RemoteMCPBridge.forward_request` (bridge.py:56-89).  `post` abstracts
`client.post` + `raise_for_status` + `response.json()` on the `/mcp` URL:
`.ok body` is the decoded remote response, `.error e` any exception raised
along the way (network failure, HTTP error status, undecodable body) with
`str(e) = e`. -/
def forward_request
    (post : List (String × String) → Json → Except String Json)
    (api_key : Option String) (method : String) (params : Option Json) : Json :=
  match post (bridge_headers api_key) (bridge_request method params) with
  | .ok body => body
  | .error e =>
    .obj [("jsonrpc", .str "2.0"),
          ("error", .obj [("code", .num (-32603)),
                          ("message", .str ("Bridge error: " ++ e))]),
          ("id", .num 1)]

/-- The `mcp.types.Tool` record as the bridge constructs it (bridge.py:117-121). -/
structure Tool where
  name : String
  description : Json
  inputSchema : Json

/-- Python `d[k]` on a decoded JSON value: `KeyError` when the key is
absent, `TypeError` when the value is not a dict. -/
def pyGetItem (j : Json) (k : String) : Except String Json :=
  match j with
  | .obj fields =>
    match jLookup fields k with
    | some v => .ok v
    | none => .error ("KeyError: " ++ k)
  | _ => .error "TypeError: value is not subscriptable by string"

/-- Python `k in x` on a decoded JSON value: key test on dicts, membership
on lists, substring test on strings, `TypeError` otherwise. -/
def pyIn (k : String) (j : Json) : Except String Bool :=
  match j with
  | .obj fields => .ok (jLookup fields k).isSome
  | .arr elems => .ok (elems.any fun e =>
      match e with
      | .str t => t == k
      | _ => false)
  | .str t => .ok (if k = "" then true else (t.splitOn k).length != 1)
  | _ => .error "TypeError: argument is not iterable"

/-- Python iteration `for x in j`: elements of a list, keys of a dictonic
object, one-character strings of a string, `TypeError` otherwise. -/
def pyElems (j : Json) : Except String (List Json) :=
  match j with
  | .arr elems => .ok elems
  | .obj fields => .ok (fields.map fun kv => Json.str kv.fst)
  | .str t => .ok (t.data.map fun c => Json.str (String.mk [c]))
  | _ => .error "TypeError: value is not iterable"

/-- One `types.Tool(name=d["name"], description=d["description"],
inputSchema=d["inputSchema"])` construction: indexing raises `KeyError` on
a missing key, and pydantic validation rejects a non-string name, a
description that is neither string nor null, or a non-dict schema. -/
def toolOfJson (j : Json) : Except String Tool := do
  let n ← pyGetItem j "name"
  let d ← pyGetItem j "description"
  let s ← pyGetItem j "inputSchema"
  match n, d, s with
  | .str nm, .str ds, .obj sch => .ok ⟨nm, .str ds, .obj sch⟩
  | .str nm, .null, .obj sch => .ok ⟨nm, .null, .obj sch⟩
  | _, _, _ => .error "ValidationError"

/-- Embedding of `handle_list_tools` (bridge.py:106-136): forwards `tools/list`, builds
`Tool`s from a well-shaped `result.tools`, and degrades every failure
(error response, unexpected shape, or any exception, caught by the
enclosing `try`) to the empty list, printing diagnostics to stderr (not
modelled). -/
def handle_list_tools
    (post : List (String × String) → Json → Except String Json)
    (api_key : Option String) : List Tool :=
  let response := forward_request post api_key "tools/list" none
  let body : Except String (List Tool) := do
    let hasResult ← pyIn "result" response
    let wellShaped ←
      if hasResult then do
        let res ← pyGetItem response "result"
        pyIn "tools" res
      else pure false
    if wellShaped then do
      let res ← pyGetItem response "result"
      let toolsJson ← pyGetItem res "tools"
      let items ← pyElems toolsJson
      items.mapM toolOfJson
    else do
      let hasErr ← pyIn "error" response
      if hasErr then pure [] else pure []
  match body with
  | .ok tools => tools
  | .error _ => []

/-- The endpoint outcome is an HTTP response whose JSON body carries the
given `id` member. -/
def outcomeRespondsWithId (o : HttpOutcome) (idv : Json) : Prop :=
  match o with
  | .response _ body => body.getKey "id" = some idv
  | .unhandled => False

/-! ## Helper lemmas -/

theorem exceptBind_ok {α β : Type} (a : α) (f : α → Except String β) :
    (Except.ok a >>= f) = f a := rfl

theorem exceptBind_error {α β : Type} (e : String) (f : α → Except String β) :
    ((Except.error e : Except String α) >>= f) = .error e := rfl

/-- Every successful dispatcher response embeds the request id it was
given. -/
theorem handle_mcp_method_ok_id {serverName : String}
    {listTools : Except String (List Json)}
    {invoke : Json → Json → Except String (List String)}
    {method params request_id : Json} {resp : Json}
    (h : handle_mcp_method serverName listTools invoke method params request_id
          = .ok resp) :
    resp.getKey "id" = some request_id := by
  simp only [handle_mcp_method] at h
  repeat' split at h
  all_goals first
    | (cases h; rfl)
    | cases h

/-- Every successful dispatcher response carries exactly one of a `result`
member or an `error` member. -/
theorem handle_mcp_method_ok_exclusive {serverName : String}
    {listTools : Except String (List Json)}
    {invoke : Json → Json → Except String (List String)}
    {method params request_id : Json} {resp : Json}
    (h : handle_mcp_method serverName listTools invoke method params request_id
          = .ok resp) :
    Bool.xor (resp.hasKey "result") (resp.hasKey "error") = true := by
  simp only [handle_mcp_method] at h
  repeat' split at h
  all_goals first
    | (cases h; rfl)
    | cases h

/-! ## Claims -/

/-- C1: with a shared secret configured and a request that fails the key
check, the handler's own `except Exception` clause catches the
`HTTPException(403)` it just raised, so the endpoint answers HTTP 500 with
a `-32603` envelope — not HTTP 403 as the spec states.  The response is
still independent of the request body (`parsed` is arbitrary), so no body
processing occurs. -/
theorem c1_denied_key_yields_500_not_403 (secret : String)
    (xApiKey authorization : Option String) (body : BodyRead)
    (serverName : String) (listTools : Except String (List Json))
    (invoke : Json → Json → Except String (List String))
    (h : check_api_key (some secret) xApiKey authorization = false) :
    handle_mcp_request (some secret) xApiKey authorization body serverName
        listTools invoke
      = .response 500 (errorEnvelope Json.null (-32603)
          "Internal error: 403: API key is required") := by
  simp only [handle_mcp_request, h, if_pos]

theorem c1_denied_key_witness :
    check_api_key (some "s3cret") none none = false
  ∧ handle_mcp_request (some "s3cret") none none (.parsed (.str "ignored body"))
        "srv" (.ok []) (fun _ _ => .error "x")
      = .response 500 (errorEnvelope Json.null (-32603)
          "Internal error: 403: API key is required") :=
  ⟨by decide,
   c1_denied_key_yields_500_not_403 "s3cret" none none
     (.parsed (.str "ignored body")) "srv" (.ok []) (fun _ _ => .error "x")
     (by decide)⟩

/-- C2: for every request whose method is a string outside the four known
methods, the dispatcher answers error code `-32601` with the method name
embedded in the message and the request's id echoed — whatever `params`
holds, so `-32601` takes precedence over any `-32602` validation. -/
theorem c2_unknown_method_32601 (serverName : String)
    (listTools : Except String (List Json))
    (invoke : Json → Json → Except String (List String))
    (m : String) (params request_id : Json)
    (h : m ∉ (["initialize", "tools/list", "tools/call", "ping"] : List String)) :
    handle_mcp_method serverName listTools invoke (.str m) params request_id
      = .ok (errorEnvelope request_id (-32601)
          ("Method \x27" ++ m ++ "\x27 not found")) := by
  simp only [List.mem_cons, List.not_mem_nil, or_false, not_or] at h
  obtain ⟨h1, h2, h3, h4⟩ := h
  simp [handle_mcp_method, Json.isStr, pyStr, h1, h2, h3, h4]

theorem c2_unknown_method_witness :
    "resources/read" ∉ (["initialize", "tools/list", "tools/call", "ping"] : List String)
  ∧ handle_mcp_method "srv" (.ok []) (fun _ _ => .error "x")
        (.str "resources/read") (.obj []) (.num 7)
      = .ok (errorEnvelope (.num 7) (-32601)
          "Method \x27resources/read\x27 not found") :=
  ⟨by decide,
   c2_unknown_method_32601 "srv" (.ok []) (fun _ _ => .error "x")
     "resources/read" (.obj []) (.num 7) (by decide)⟩

/-- C4 counterexample: a body of non-UTF-8 bytes (e.g. `b"\xff"`) passes
the gate and is not parseable as JSON, yet the endpoint answers HTTP 500
with a `-32603` envelope, not HTTP 400 with the `-32700` envelope: the
`UnicodeDecodeError` from `body.decode()` is not a `json.JSONDecodeError`,
so it falls to the blanket `except Exception` clause. -/
theorem c4_nonutf8_counterexample :
    handle_mcp_request none none none
        (.decodeError "\x27utf-8\x27 codec can\x27t decode byte 0xff in position 0: invalid start byte")
        "srv" (.ok []) (fun _ _ => .error "x")
      = .response 500 (errorEnvelope Json.null (-32603)
          ("Internal error: " ++ "\x27utf-8\x27 codec can\x27t decode byte 0xff in position 0: invalid start byte"))
  ∧ handle_mcp_request none none none
        (.decodeError "\x27utf-8\x27 codec can\x27t decode byte 0xff in position 0: invalid start byte")
        "srv" (.ok []) (fun _ _ => .error "x")
      ≠ .response 400 (errorEnvelope Json.null (-32700) "Parse error") := by
  constructor
  · rfl
  · intro h
    have h2 : HttpOutcome.response 500 (errorEnvelope Json.null (-32603)
          ("Internal error: " ++ "\x27utf-8\x27 codec can\x27t decode byte 0xff in position 0: invalid start byte"))
        = HttpOutcome.response 400 (errorEnvelope Json.null (-32700) "Parse error") := h
    injection h2 with hs hb
    exact absurd hs (by decide)

/-- C4 amended: when the gate passes and the body decodes as UTF-8 text
but `json.loads` fails on it, the endpoint answers HTTP 400 with exactly
the
`{"jsonrpc":"2.0","id":null,"error":{"code":-32700,"message":"Parse error"}}`
envelope; a body that is not even UTF-8-decodable instead yields HTTP 500
with a `-32603` envelope embedding the decode failure, id null. -/
theorem c4_amended_parse_error_400
    (required_api_key xApiKey authorization : Option String)
    (serverName : String) (listTools : Except String (List Json))
    (invoke : Json → Json → Except String (List String)) (msg : String)
    (h : check_api_key required_api_key xApiKey authorization = true) :
    handle_mcp_request required_api_key xApiKey authorization .parseError
        serverName listTools invoke
      = .response 400 (.obj [("jsonrpc", .str "2.0"), ("id", .null),
          ("error", .obj [("code", .num (-32700)),
                          ("message", .str "Parse error")])])
  ∧ handle_mcp_request required_api_key xApiKey authorization (.decodeError msg)
        serverName listTools invoke
      = .response 500 (errorEnvelope Json.null (-32603)
          ("Internal error: " ++ msg)) := by
  constructor <;> simp [handle_mcp_request, h, errorEnvelope]

theorem c4_amended_witness :
    check_api_key none none none = true
  ∧ handle_mcp_request none none none .parseError "srv" (.ok [])
        (fun _ _ => .error "x")
      = .response 400 (.obj [("jsonrpc", .str "2.0"), ("id", .null),
          ("error", .obj [("code", .num (-32700)),
                          ("message", .str "Parse error")])])
  ∧ handle_mcp_request none none none (.decodeError "bad bytes") "srv" (.ok [])
        (fun _ _ => .error "x")
      = .response 500 (errorEnvelope Json.null (-32603)
          "Internal error: bad bytes") :=
  ⟨by decide,
   (c4_amended_parse_error_400 none none none "srv" (.ok [])
      (fun _ _ => .error "x") "bad bytes" (by decide)).1,
   (c4_amended_parse_error_400 none none none "srv" (.ok [])
      (fun _ _ => .error "x") "bad bytes" (by decide)).2⟩

/-- C5: `initialize` succeeds for every `params` value (object, null, or
anything else) with the fixed protocol version, the declared capabilities
and the server identity; the response has a `result` member and no
`error` member. -/
theorem c5_initialize_never_errors (serverName : String)
    (listTools : Except String (List Json))
    (invoke : Json → Json → Except String (List String))
    (params request_id : Json) :
    handle_mcp_method serverName listTools invoke (.str "initialize") params
        request_id
      = .ok (.obj [("jsonrpc", .str "2.0"), ("id", request_id),
          ("result", .obj [
            ("protocolVersion", .str "2024-11-05"),
            ("capabilities", .obj [("tools", .obj [("listChanged", .bool true)])]),
            ("serverInfo", .obj [("name", .str serverName),
                                 ("version", .str "1.0.0")])])])
  ∧ Json.hasKey (.obj [("jsonrpc", .str "2.0"), ("id", request_id),
          ("result", .obj [
            ("protocolVersion", .str "2024-11-05"),
            ("capabilities", .obj [("tools", .obj [("listChanged", .bool true)])]),
            ("serverInfo", .obj [("name", .str serverName),
                                 ("version", .str "1.0.0")])])]) "error" = false :=
  ⟨rfl, rfl⟩

/-- C9: every request body the bridge builds for the remote endpoint
carries the constant id `1`, for every method and params value
(`forward_request` has no parameter through which a local request id
could even be supplied). -/
theorem c9_bridge_request_id_one (method : String) (params : Option Json) :
    (bridge_request method params).getKey "id" = some (.num 1) := by
  cases params with
  | none => rfl
  | some p =>
    simp only [bridge_request]
    split <;> rfl

/-- C3: on `tools/call`, a missing or empty `params.name` yields error
code `-32602` with the tool left uninvoked (the response is the same for
every `invoke`), and a present name whose invocation raises yields error
code `-32603` carrying the failure detail as the message. -/
theorem c3_tools_call_name_validation (serverName : String)
    (listTools : Except String (List Json))
    (invoke : Json → Json → Except String (List String))
    (fields : List (String × Json)) (nm : String) (args request_id : Json)
    (e : String) :
    ((jLookup fields "name" = none ∨ jLookup fields "name" = some (.str "")) →
      handle_mcp_method serverName listTools invoke (.str "tools/call")
          (.obj fields) request_id
        = .ok (errorEnvelope request_id (-32602) "Missing tool name"))
  ∧ (nm ≠ "" → invoke (.str nm) args = .error e →
      handle_mcp_method serverName listTools invoke (.str "tools/call")
          (.obj [("name", .str nm), ("arguments", args)]) request_id
        = .ok (errorEnvelope request_id (-32603) e)) := by
  constructor
  · intro h
    rcases h with h | h <;>
      simp [handle_mcp_method, Json.isStr, Json.truthy, h]
  · intro hnm hinv
    simp [handle_mcp_method, Json.isStr, Json.truthy, jLookup, hnm,
      call_mcp_tool, hinv, Json.getKey, errorEnvelope]

theorem c3_tools_call_witness :
    handle_mcp_method "srv" (.ok []) (fun _ _ => .error "boom")
        (.str "tools/call") (.obj []) (.num 5)
      = .ok (errorEnvelope (.num 5) (-32602) "Missing tool name")
  ∧ handle_mcp_method "srv" (.ok []) (fun _ _ => .error "boom")
        (.str "tools/call") (.obj [("name", .str "echo"), ("arguments", .obj [])])
        (.num 6)
      = .ok (errorEnvelope (.num 6) (-32603) "boom") :=
  ⟨(c3_tools_call_name_validation "srv" (.ok []) (fun _ _ => .error "boom")
      [] "echo" (.obj []) (.num 5) "boom").1 (Or.inl rfl),
   (c3_tools_call_name_validation "srv" (.ok []) (fun _ _ => .error "boom")
      [] "echo" (.obj []) (.num 6) "boom").2 (by decide) rfl⟩

/-- C6: every JSON-RPC response body the dispatcher or the endpoint
produces carries exactly one of a `result` member or an `error` member. -/
theorem c6_result_error_exclusive :
    (∀ (serverName : String) (listTools : Except String (List Json))
        (invoke : Json → Json → Except String (List String))
        (method params request_id resp : Json),
        handle_mcp_method serverName listTools invoke method params request_id
            = .ok resp →
        Bool.xor (resp.hasKey "result") (resp.hasKey "error") = true)
  ∧ (∀ (required_api_key xApiKey authorization : Option String)
        (rawBody : BodyRead) (serverName : String)
        (listTools : Except String (List Json))
        (invoke : Json → Json → Except String (List String))
        (status : Nat) (body : Json),
        handle_mcp_request required_api_key xApiKey authorization rawBody
            serverName listTools invoke = .response status body →
        Bool.xor (body.hasKey "result") (body.hasKey "error") = true) := by
  constructor
  · intro _ _ _ _ _ _ _ h
    exact handle_mcp_method_ok_exclusive h
  · intro _ _ _ _ _ _ _ _ _ h
    simp only [handle_mcp_request] at h
    repeat' split at h
    all_goals first
      | (cases h; rfl)
      | (cases h; exact handle_mcp_method_ok_exclusive (by assumption))
      | cases h

theorem c6_exclusive_witness :
    Bool.xor
      ((Json.obj [("jsonrpc", .str "2.0"), ("id", .null),
        ("result", .obj [])]).hasKey "result")
      ((Json.obj [("jsonrpc", .str "2.0"), ("id", .null),
        ("result", .obj [])]).hasKey "error") = true
  ∧ Bool.xor
      ((errorEnvelope Json.null (-32700) "Parse error").hasKey "result")
      ((errorEnvelope Json.null (-32700) "Parse error").hasKey "error") = true :=
  ⟨c6_result_error_exclusive.1 "srv" (.ok []) (fun _ _ => .error "x")
     (.str "ping") .null .null _ rfl,
   c6_result_error_exclusive.2 none none none .parseError "srv" (.ok [])
     (fun _ _ => .error "x") 400 _ rfl⟩

/-- C7 counterexample: a request whose id is absent is *not* treated as a
notification — the endpoint still returns an HTTP 200 response carrying a
full JSON-RPC body (with `id: null`). -/
theorem c7_notification_counterexample :
    handle_mcp_request none none none (.parsed (.obj [("method", .str "ping")]))
        "srv" (.ok []) (fun _ _ => .error "x")
      = .response 200 (.obj [("jsonrpc", .str "2.0"), ("id", Json.null),
          ("result", .obj [])]) := rfl

/-- C7 amended: a request whose id is absent or null is processed like any
other; the endpoint always sends back a JSON-RPC response, whose `id`
member is null. -/
theorem c7_amended_null_id_gets_response
    (required_api_key xApiKey authorization : Option String)
    (fields : List (String × Json)) (serverName : String)
    (listTools : Except String (List Json))
    (invoke : Json → Json → Except String (List String))
    (hgate : check_api_key required_api_key xApiKey authorization = true)
    (hid : jLookup fields "id" = none ∨ jLookup fields "id" = some Json.null) :
    outcomeRespondsWithId
      (handle_mcp_request required_api_key xApiKey authorization
        (.parsed (.obj fields)) serverName listTools invoke)
      Json.null := by
  have hrid : (jLookup fields "id").getD Json.null = Json.null := by
    rcases hid with h | h <;> simp [h]
  cases hres : handle_mcp_method serverName listTools invoke
      ((jLookup fields "method").getD Json.null)
      ((jLookup fields "params").getD (Json.obj []))
      Json.null with
  | ok resp =>
    have hidkey := handle_mcp_method_ok_id hres
    simp [handle_mcp_request, hgate, outcomeRespondsWithId, hrid, hres, hidkey]
  | error e =>
    simp [handle_mcp_request, hgate, outcomeRespondsWithId, hrid, hres,
      errorEnvelope, Json.getKey, jLookup]

theorem c7_amended_witness :
    outcomeRespondsWithId
      (handle_mcp_request none none none
        (.parsed (.obj [("method", .str "tools/list")])) "srv" (.ok [])
        (fun _ _ => .error "x"))
      Json.null :=
  c7_amended_null_id_gets_response none none none
    [("method", .str "tools/list")] "srv" (.ok []) (fun _ _ => .error "x")
    (by decide) (Or.inl rfl)

/-- C8: forwarding failures are downgraded to a `-32603` JSON-RPC error
envelope embedding the underlying failure, and a failed `tools/list`
forward — transport exception, remote error response, or unexpected
response shape (including malformed tool entries) — yields the empty tool
list. -/
theorem c8_bridge_failure_handling
    (post : List (String × String) → Json → Except String Json)
    (api_key : Option String) (method : String) (params : Option Json)
    (e : String) (fields : List (String × Json)) :
    (post (bridge_headers api_key) (bridge_request method params) = .error e →
      forward_request post api_key method params
        = .obj [("jsonrpc", .str "2.0"),
                ("error", .obj [("code", .num (-32603)),
                                ("message", .str ("Bridge error: " ++ e))]),
                ("id", .num 1)])
  ∧ (post (bridge_headers api_key) (bridge_request "tools/list" none) = .error e →
      handle_list_tools post api_key = [])
  ∧ (post (bridge_headers api_key) (bridge_request "tools/list" none)
        = .ok (.obj fields) →
      jLookup fields "result" = none →
      handle_list_tools post api_key = [])
  ∧ (post (bridge_headers api_key) (bridge_request "tools/list" none)
        = .ok (.obj [("result", .obj [("tools", .arr [.obj []])])]) →
      handle_list_tools post api_key = []) := by
  refine ⟨?_, ?_, ?_, ?_⟩
  · intro h
    simp [forward_request, h]
  · intro h
    simp [handle_list_tools, forward_request, h, pyIn, jLookup,
      exceptBind_ok]
  · intro h hres
    simp [handle_list_tools, forward_request, h, pyIn, hres,
      exceptBind_ok]
  · intro h
    simp only [handle_list_tools, forward_request, h]
    rfl

theorem c8_bridge_failure_witness :
    forward_request (fun _ _ => .error "connection refused") none "tools/list" none
      = .obj [("jsonrpc", .str "2.0"),
              ("error", .obj [("code", .num (-32603)),
                              ("message", .str "Bridge error: connection refused")]),
              ("id", .num 1)]
  ∧ handle_list_tools (fun _ _ => .error "connection refused") none = []
  ∧ handle_list_tools
      (fun _ _ => .ok (.obj [("error", .obj [("code", .num (-32603)),
        ("message", .str "boom")])])) none = []
  ∧ handle_list_tools
      (fun _ _ => .ok (.obj [("result", .obj [("tools", .arr [.obj []])])]))
      none = [] :=
  ⟨(c8_bridge_failure_handling (fun _ _ => .error "connection refused") none
      "tools/list" none "connection refused" []).1 rfl,
   (c8_bridge_failure_handling (fun _ _ => .error "connection refused") none
      "tools/list" none "connection refused" []).2.1 rfl,
   (c8_bridge_failure_handling
      (fun _ _ => .ok (.obj [("error", .obj [("code", .num (-32603)),
        ("message", .str "boom")])])) none "tools/list" none "x"
      [("error", .obj [("code", .num (-32603)), ("message", .str "boom")])]).2.2.1
      rfl rfl,
   (c8_bridge_failure_handling
      (fun _ _ => .ok (.obj [("result", .obj [("tools", .arr [.obj []])])]))
      none "tools/list" none "x" []).2.2.2 rfl⟩

theorem bearer_append_ne_empty (s : String) : ("Bearer " ++ s) ≠ "" := by
  intro h
  have hlen := congrArg String.length h
  rw [String.length_append] at hlen
  have h7 : "Bearer ".length = 7 := rfl
  have h0 : ("" : String).length = 0 := rfl
  omega

theorem ne_bearer_append_self (t : String) : t ≠ "Bearer " ++ t := by
  intro h
  have hlen := congrArg String.length h
  rw [String.length_append] at hlen
  have h7 : "Bearer ".length = 7 := rfl
  omega

theorem bearer_pyStartswith (s : String) :
    pyStartswith ("Bearer " ++ s) "Bearer " = true := by
  simp [pyStartswith, String.data_append, List.isPrefixOf_iff_prefix]

theorem bearer_pyDrop (s : String) : pyDrop ("Bearer " ++ s) 7 = s := by
  show String.mk (("Bearer " ++ s).data.drop 7) = s
  rw [String.data_append, @List.drop_left' _ ("Bearer ".data) s.data 7 rfl]

/-- C10 counterexample: a single header value *can* match a configured
secret that itself begins with `"Bearer "` — doubling the prefix does it. -/
theorem c10_double_bearer_counterexample :
    pyStartswith "Bearer k" "Bearer " = true
  ∧ check_api_key (some "Bearer k") (some "Bearer Bearer k") none = true := by
  decide

/-- C10 amended: the gate strips a leading `"Bearer "` prefix from
whichever header it reads — the `X-API-Key` header included — so for every
configured secret `s` a request with `X-API-Key` equal to `"Bearer " + s`
passes; a secret that itself begins with `"Bearer "` is not matched by a
header equal to the secret, but is matched once an extra `"Bearer "`
prefix is added. -/
theorem c10_amended_bearer_stripping (s t : String) (h : s ≠ "") :
    check_api_key (some s) (some ("Bearer " ++ s)) none = true
  ∧ (s = "Bearer " ++ t → check_api_key (some s) (some s) none = false)
  ∧ check_api_key (some ("Bearer " ++ s)) (some ("Bearer Bearer " ++ s)) none
      = true := by
  refine ⟨?_, ?_, ?_⟩
  · simp [check_api_key, pyOr, h, bearer_append_ne_empty s,
      bearer_pyStartswith s, bearer_pyDrop s]
  · intro hs
    subst hs
    simp [check_api_key, pyOr, bearer_append_ne_empty t,
      bearer_pyStartswith t, bearer_pyDrop t, ne_bearer_append_self t]
  · have hq : ("Bearer Bearer " ++ s) = "Bearer " ++ ("Bearer " ++ s) := by
      obtain ⟨l⟩ := s
      rfl
    rw [hq]
    simp [check_api_key, pyOr, bearer_append_ne_empty ("Bearer " ++ s),
      bearer_pyStartswith ("Bearer " ++ s), bearer_pyDrop ("Bearer " ++ s)]

theorem c10_amended_witness :
    check_api_key (some "Bearer w") (some ("Bearer " ++ "Bearer w")) none = true
  ∧ check_api_key (some "Bearer w") (some "Bearer w") none = false
  ∧ check_api_key (some ("Bearer " ++ "Bearer w"))
      (some ("Bearer Bearer " ++ "Bearer w")) none = true :=
  ⟨(c10_amended_bearer_stripping "Bearer w" "w" (by decide)).1,
   (c10_amended_bearer_stripping "Bearer w" "w" (by decide)).2.1 rfl,
   (c10_amended_bearer_stripping "Bearer w" "w" (by decide)).2.2⟩
